import Mathlib

set_option maxRecDepth 100000

/-!
Verification of the GeoArk geospatial search backend
(`backend/geospatial_search_enhanced.py` and `ollama_from_python.py`).

Text is modelled as `List Char`.  Python strings become `List Char`, Python
dicts with a fixed shape become structures, exceptions become `Except` or
explicit outcome types, and the external collaborators (PostgreSQL, the
pandas/SQLAlchemy engine, the Ollama language model, Python's `json.loads`)
are parameters of the functions that call them.
-/

/-- Characters of a string literal, the textual base type of the model. -/
def strChars (s : String) : List Char := s.data

/-- The apostrophe character, used by the error-message templates. -/
def quoteChar : Char := '\x27'

/-- ASCII lowering of one character, as performed by SQL `LOWER` and by
Python `str.lower` on the ASCII range (`Char.toLower` lowers exactly the
basic latin letters). -/
def lowerChar (c : Char) : Char := c.toLower

/-- Lowering of a whole string (SQL `LOWER(field)`, Python `term.lower()`). -/
def lowerStr (s : List Char) : List Char := s.map lowerChar

/-- `occursIn t s` is true when `t` occurs contiguously inside `s`
(the plain substring relation, no wildcards). -/
def occursIn (t : List Char) : List Char → Bool
  | [] => t.isEmpty
  | c :: s => t.isPrefixOf (c :: s) || occursIn t s

/-! ## SQL LIKE patterns

`search_metadata` and `search_columns` compare fields with
`LOWER(field) LIKE '%term%'`.  A LIKE pattern is tokenized first
(`%` matches any sequence, `_` any one character, a backslash escapes the
following character, which is PostgreSQL's default escape) and then matched
structurally. -/

/-- One token of a SQL LIKE pattern. -/
inductive LikeTok where
  | any
  | one
  | lit (c : Char)
deriving DecidableEq

/-- Tokenize a LIKE pattern: `%` and `_` are wildcards, a backslash escapes
the next character (PostgreSQL's default escape character). -/
def lexPattern : List Char → List LikeTok
  | [] => []
  | c :: p =>
    if c = '\\' then
      match p with
      | [] => [LikeTok.lit c]
      | d :: p2 => LikeTok.lit d :: lexPattern p2
    else if c = '%' then LikeTok.any :: lexPattern p
    else if c = '_' then LikeTok.one :: lexPattern p
    else LikeTok.lit c :: lexPattern p

/-- All suffixes of a string, the candidate continuations for a `%` token. -/
def suffixes : List Char → List (List Char)
  | [] => [[]]
  | c :: s => (c :: s) :: suffixes s

/-- Match a tokenized LIKE pattern against a string. -/
def likeRun : List LikeTok → List Char → Bool
  | [], s => s.isEmpty
  | LikeTok.one :: p, s =>
    match s with
    | [] => false
    | _ :: s2 => likeRun p s2
  | LikeTok.lit c :: p, s =>
    match s with
    | [] => false
    | d :: s2 => c == d && likeRun p s2
  | LikeTok.any :: p, s => (suffixes s).any (fun s2 => likeRun p s2)

/-- `field LIKE pattern` for SQL LIKE. -/
def likeMatch (pattern s : List Char) : Bool := likeRun (lexPattern pattern) s

/-- The parameter bound to each `LIKE %s` placeholder:
`term_pattern = f"%{term.lower()}%"`. -/
def mkLikePattern (term : List Char) : List Char := '%' :: (lowerStr term ++ ['%'])

/-- True when the string contains no LIKE wildcard and no escape character,
so that `LIKE '%t%'` coincides with substring containment. -/
def noWildcards (t : List Char) : Bool :=
  t.all (fun c => c != '%' && c != '_' && c != '\\')

/-! ## Metadata store data model (`PostGISSearcher`)

One row of the `dataset_metadata` catalog table, with the columns selected by
`search_metadata`.  `row_count` is nullable (`ORDER BY row_count DESC NULLS
LAST`). -/

structure CatalogRow where
  id : Nat
  dataset_name : List Char
  table_name : List Char
  source_path : List Char
  geometry_type : List Char
  row_count : Option Int
  column_list : List (List Char)
  crs : List Char
  bbox : List Char
  date_ingested : List Char
deriving DecidableEq

/-- A pandas data frame: the observed column names and the sampled rows
(cells kept as text). -/
structure DataFrame where
  columns : List (List Char)
  rows : List (List (List Char))
deriving DecidableEq

/-- `pd.DataFrame()`, returned by the failure paths of `get_table_sample`
and `join_tables_by_fips`. -/
def emptyDataFrame : DataFrame := { columns := [], rows := [] }

/-- `df.empty` in pandas: true when one of the axes has length zero. -/
def DataFrame.isEmptyDF (df : DataFrame) : Bool :=
  df.columns.isEmpty || df.rows.isEmpty

/-- The per-term disjunct of `search_metadata`'s WHERE clause:
`LOWER(dataset_name) LIKE %s OR LOWER(table_name) LIKE %s OR EXISTS
(SELECT 1 FROM unnest(column_list) AS col WHERE LOWER(col) LIKE %s)`,
each placeholder bound to `f"%{term.lower()}%"`. -/
def termCondition (term : List Char) (row : CatalogRow) : Bool :=
  let pat := mkLikePattern term
  likeMatch pat (lowerStr row.dataset_name) ||
    likeMatch pat (lowerStr row.table_name) ||
    row.column_list.any (fun c => likeMatch pat (lowerStr c))

/-- The geometry conjunct: `search_metadata` appends
`AND geometry_type = %s` only under Python's `if geometry_type:`, so a
`None` or empty-string filter leaves the term disjunction alone. -/
def geomFilter (geometry_type : Option (List Char)) (row : CatalogRow) : Bool :=
  match geometry_type with
  | none => true
  | some g => if g.isEmpty then true else row.geometry_type == g

/-- The whole WHERE clause of `search_metadata`: the term disjuncts are
joined with OR and the geometry filter is conjoined over the disjunction. -/
def rowMatches (terms : List (List Char)) (geometry_type : Option (List Char))
    (row : CatalogRow) : Bool :=
  terms.any (fun t => termCondition t row) && geomFilter geometry_type row

/-- `ORDER BY row_count DESC NULLS LAST` as a binary comparison:
`a` may come before `b`. -/
def rowCountGE (a b : CatalogRow) : Bool :=
  match a.row_count, b.row_count with
  | none, none => true
  | none, some _ => false
  | some _, none => true
  | some x, some y => decide (y ≤ x)

/-- Insertion step of the catalog sort. -/
def insertByRowCount (r : CatalogRow) : List CatalogRow → List CatalogRow
  | [] => [r]
  | x :: xs => if rowCountGE r x then r :: x :: xs else x :: insertByRowCount r xs

/-- A sort realizing `ORDER BY row_count DESC NULLS LAST` (stable insertion
sort; PostgreSQL leaves the order of ties unspecified, so any consistent
choice is a faithful model). -/
def sortByRowCount : List CatalogRow → List CatalogRow
  | [] => []
  | x :: xs => insertByRowCount x (sortByRowCount xs)

/-- The result set computed by `search_metadata`'s query when the statement
executes: filter by the WHERE clause, order by descending row count, apply
`LIMIT %s`. -/
def search_metadata_query (catalog : List CatalogRow) (terms : List (List Char))
    (geometry_type : Option (List Char)) (limit : Nat) : List CatalogRow :=
  (sortByRowCount (catalog.filter (rowMatches terms geometry_type))).take limit

/-- `PostGISSearcher.search_metadata`.  `dbOk` says whether the statement
executes without a database error; an empty `search_terms` list produces a
malformed WHERE clause (`" OR ".join` of nothing), which the database
rejects, so it takes the failure path as well.  The failure path logs,
rolls back the connection and returns `[]`.  The second component reports
whether a rollback was performed. -/
def search_metadata (catalog : List CatalogRow) (terms : List (List Char))
    (geometry_type : Option (List Char)) (limit : Nat) (dbOk : Bool) :
    List CatalogRow × Bool :=
  if dbOk && !terms.isEmpty then
    (search_metadata_query catalog terms geometry_type limit, false)
  else
    ([], true)

/-- One result group of `search_columns`: a `(table, pattern)` group with
the matching columns aggregated. -/
structure ColumnSearchResult where
  table_name : List Char
  dataset_name : List Char
  geometry_type : List Char
  matching_columns : List (List Char)
  search_pattern : List Char
deriving DecidableEq

/-- Merge one catalog row's matching columns into the groups accumulated so
far (`GROUP BY table_name, dataset_name, geometry_type` with
`array_agg(col)`). -/
def addColGroup (groups : List ColumnSearchResult) (t d g : List Char)
    (cols : List (List Char)) (p : List Char) : List ColumnSearchResult :=
  match groups with
  | [] => [{ table_name := t, dataset_name := d, geometry_type := g,
             matching_columns := cols, search_pattern := p }]
  | r :: rest =>
    if r.table_name = t ∧ r.dataset_name = d ∧ r.geometry_type = g then
      { r with matching_columns := r.matching_columns ++ cols } :: rest
    else
      r :: addColGroup rest t d g cols p

/-- The groups produced by `search_columns`'s query for one pattern. -/
def columnGroups (catalog : List CatalogRow) (p : List Char) :
    List ColumnSearchResult :=
  catalog.foldl
    (fun acc row =>
      let cols := row.column_list.filter
        (fun c => likeMatch (mkLikePattern p) (lowerStr c))
      if cols.isEmpty then acc
      else addColGroup acc row.table_name row.dataset_name row.geometry_type
        cols p)
    []

/-- `PostGISSearcher.search_columns`: one `LIMIT`-ed query per pattern, the
per-pattern result lists concatenated.  On a database error: log, rollback,
return `[]`. -/
def search_columns (catalog : List CatalogRow) (patterns : List (List Char))
    (limit : Nat) (dbOk : Bool) : List ColumnSearchResult × Bool :=
  if dbOk then
    (patterns.foldr (fun p acc => (columnGroups catalog p).take limit ++ acc) [],
      false)
  else
    ([], true)

/-- Natural number rendered in decimal, for interpolated `LIMIT` clauses. -/
def natChars (n : Nat) : List Char := (toString n).data

/-- Join string pieces with a separator (Python `", ".join(...)`). -/
def joinSep (sep : List Char) : List (List Char) → List Char
  | [] => []
  | [x] => x
  | x :: xs => x ++ sep ++ joinSep sep xs

/-- The SQL text built by `get_table_sample`
(`SELECT {col_str} FROM "{table_name}" LIMIT {limit}`); an empty column
list is falsy in Python, so it selects `*` like `None`. -/
def buildSampleQuery (table_name : List Char) (columns : Option (List (List Char)))
    (limit : Nat) : List Char :=
  let col_str :=
    match columns with
    | some cols =>
      if cols.isEmpty then strChars "*"
      else joinSep (strChars ", ") (cols.map (fun c => '"' :: (c ++ ['"'])))
    | none => strChars "*"
  strChars "SELECT " ++ col_str ++ strChars " FROM \"" ++ table_name ++
    strChars "\" LIMIT " ++ natChars limit

/-- `PostGISSearcher.get_table_sample`: runs the built query through the
SQLAlchemy engine (`pd.read_sql`), modelled by `engine`.  On any failure it
logs and returns an empty frame; it performs no rollback (the second
component) because it never touches the psycopg2 connection. -/
def get_table_sample (engine : List Char → Except (List Char) DataFrame)
    (table_name : List Char) (columns : Option (List (List Char)))
    (limit : Nat) : DataFrame × Bool :=
  match engine (buildSampleQuery table_name columns limit) with
  | Except.ok df => (df, false)
  | Except.error _ => (emptyDataFrame, false)

/-- The SQL text built by `join_tables_by_fips`: an inner join of the two
tables on the given key columns, with either the requested
`"{tbl}"."{col}" as "{tbl}_{col}"` projections or `"t1".*, "t2".*`
(an empty `select_columns` mapping is falsy in Python and selects all). -/
def buildJoinQuery (table1 table2 fips_column1 fips_column2 : List Char)
    (select_columns : Option (List (List Char × List (List Char))))
    (limit : Nat) : List Char :=
  let cols :=
    match select_columns with
    | some m =>
      if m.isEmpty then ['"'] ++ table1 ++ strChars "\".*, \"" ++ table2 ++ strChars "\".*"
      else joinSep (strChars ", ")
        (m.foldr (fun tc acc =>
          (tc.2.map (fun col =>
            ['"'] ++ tc.1 ++ strChars "\".\"" ++ col ++ strChars "\" as \"" ++
              tc.1 ++ ['_'] ++ col ++ ['"'])) ++ acc) [])
    | none => ['"'] ++ table1 ++ strChars "\".*, \"" ++ table2 ++ strChars "\".*"
  strChars "SELECT " ++ cols ++ strChars " FROM \"" ++ table1 ++
    strChars "\" INNER JOIN \"" ++ table2 ++ strChars "\" ON \"" ++ table1 ++
    strChars "\".\"" ++ fips_column1 ++ strChars "\" = \"" ++ table2 ++
    strChars "\".\"" ++ fips_column2 ++ strChars "\" LIMIT " ++ natChars limit

/-- `PostGISSearcher.join_tables_by_fips`: runs the join through the engine;
on any failure it logs and returns an empty frame, with no rollback. -/
def join_tables_by_fips (engine : List Char → Except (List Char) DataFrame)
    (table1 table2 fips_column1 fips_column2 : List Char)
    (select_columns : Option (List (List Char × List (List Char))))
    (limit : Nat) : DataFrame × Bool :=
  match engine (buildJoinQuery table1 table2 fips_column1 fips_column2
      select_columns limit) with
  | Except.ok df => (df, false)
  | Except.error _ => (emptyDataFrame, false)

/-- Result shape of `get_statistics`: either the plain mapping `dict(result)`
(the failure path returns the empty mapping `\x7b\x7d`) or the grouped shape
keyed by `grouped_statistics`. -/
inductive StatsResult where
  | mapping (m : List (List Char × List Char))
  | grouped (rows : List (List (List Char × List Char)))
deriving DecidableEq

/-- `PostGISSearcher.get_statistics`: the aggregate rows come back from the
cursor (`exec`); with a `group_by` the rows are wrapped under
`grouped_statistics`, otherwise the single fetched row becomes the mapping.
On a database error: log, rollback, return the empty mapping. -/
def get_statistics (exec : Except (List Char) (List (List (List Char × List Char))))
    (group_by : Option (List Char)) : StatsResult × Bool :=
  match exec with
  | Except.ok rows =>
    match group_by with
    | some _ => (StatsResult.grouped rows, false)
    | none => (StatsResult.mapping (rows.headD []), false)
  | Except.error _ => (StatsResult.mapping [], true)

/-! ## Query decomposer (`QueryDecomposer`)

The language model returns free text; `decompose` strips an optional fenced
code block, `strip()`s the remainder and hands it to `json.loads`.  Both the
model call and the JSON parser are external: the call outcome is an
`LLMOutcome` and the parser is a function to `Option DecomposeResult`
(`none` covers a `json.JSONDecodeError` as well as a parse result that is
not an object of the recognized shape, which raises while being consumed
inside the same `try`). -/

/-- One entry of `search_queries`. -/
structure SubQuery where
  query : List Char
  purpose : List Char
deriving DecidableEq

/-- The decomposition object as consumed downstream: `search_queries` is
`Option` because the parsed JSON object may lack the key (`result.get
("search_queries", [])` supplies the default), `primary_concepts` is carried
only for observability. -/
structure DecomposeResult where
  primary_concepts : Option (List (List Char))
  search_queries : Option (List SubQuery)
deriving DecidableEq

/-- Outcome of `self.llm.ainvoke(prompt)`: a textual response, or an
exception during the call. -/
inductive LLMOutcome where
  | response (content : List Char)
  | failure (err : List Char)

/-- The fallback sub-query `{"query": query, "purpose": "primary"}`. -/
def fallbackSubquery (q : List Char) : SubQuery :=
  { query := q, purpose := strChars "primary" }

/-- The fallback decomposition built by both `except` branches of
`decompose`: `{"primary_concepts": [query], "search_queries": [{"query":
query, "purpose": "primary"}]}`. -/
def fallbackDecomposition (q : List Char) : DecomposeResult :=
  { primary_concepts := some [q], search_queries := some [fallbackSubquery q] }

/-- Index of the first occurrence of `sep` in `s`, if any. -/
def findSubIdx (sep : List Char) : List Char → Option Nat
  | [] => if sep.isEmpty then some 0 else none
  | c :: rest =>
    if sep.isPrefixOf (c :: rest) then some 0
    else (findSubIdx sep rest).map (fun i => i + 1)

/-- Python's `sep in s`. -/
def containsSub (sep s : List Char) : Bool := (findSubIdx sep s).isSome

/-- Worker for `splitOnSub`; the fuel is at least the length of `s`, which
suffices because every step consumes at least one character of `s` when
`sep` is non-empty. -/
def splitOnSubAux : Nat → List Char → List Char → List (List Char)
  | 0, _, s => [s]
  | fuel + 1, sep, s =>
    match findSubIdx sep s with
    | none => [s]
    | some i => s.take i :: splitOnSubAux fuel sep (s.drop (i + sep.length))

/-- Python's `s.split(sep)` for a non-empty separator. -/
def splitOnSub (sep s : List Char) : List (List Char) :=
  splitOnSubAux (s.length + 1) sep s

/-- Python whitespace stripped by `str.strip()` (restricted to ASCII). -/
def isPySpace (c : Char) : Bool :=
  c == ' ' || c == '\t' || c == '\n' || c == '\r' || c == '\x0B' || c == '\x0C'

/-- Python's `s.strip()`. -/
def pyStrip (s : List Char) : List Char :=
  ((s.dropWhile isPySpace).reverse.dropWhile isPySpace).reverse

/-- The fence-stripping step of `decompose`: with a leading "```json" fence
take `content.split("```json")[1].split("```")[0]`, else with a generic
fence take `content.split("```")[1].split("```")[0]`, else the raw
content. -/
def stripFences (content : List Char) : List Char :=
  if containsSub (strChars "```json") content then
    (splitOnSub (strChars "```")
      ((splitOnSub (strChars "```json") content).getD 1 [])).getD 0 []
  else if containsSub (strChars "```") content then
    (splitOnSub (strChars "```")
      ((splitOnSub (strChars "```") content).getD 1 [])).getD 0 []
  else content

/-- `QueryDecomposer.decompose`: on a successful call, strip fences, strip
whitespace and parse; a parse failure or a failed call lands in an `except`
branch that returns `fallbackDecomposition`.  The function is total: no
outcome raises to the caller. -/
def decompose (jsonParse : List Char → Option DecomposeResult) (query : List Char)
    (llm : LLMOutcome) : DecomposeResult :=
  match llm with
  | LLMOutcome.failure _ => fallbackDecomposition query
  | LLMOutcome.response content =>
    match jsonParse (pyStrip (stripFences content)) with
    | some r => r
    | none => fallbackDecomposition query

/-! ## The search pipeline (`GeospatialSearchAgent`)

The LangGraph graph is linear: `decompose` → `search_variables` →
`search_database` → `aggregate_results` → END, each node a transformation
of the shared `SearchState`. -/

/-- A catalog match stamped by `_search_variables_node` with the originating
sub-query text and purpose. -/
structure MetadataMatch where
  row : CatalogRow
  search_query : List Char
  search_purpose : List Char
deriving DecidableEq

/-- One entry of `database_results` built by `_search_database_node`. -/
structure DBResult where
  table_name : List Char
  sample_data : List (List (List Char))
  columns : List (List Char)
deriving DecidableEq

/-- The `final_results` summary assembled by `_aggregate_results_node`. -/
structure FinalResults where
  query : List Char
  decomposition : List SubQuery
  results_by_purpose : List (List Char × List MetadataMatch)
  available_tables : List (List Char)
  total_matches : Nat
  errors : List (List Char)
deriving DecidableEq

/-- The `SearchState` TypedDict.  `final_results` starts as the empty dict,
modelled by `none`; `messages` is never touched by any node. -/
structure SearchState where
  original_query : List Char
  decomposed_queries : List SubQuery
  variable_results : List MetadataMatch
  database_results : List DBResult
  final_results : Option FinalResults
  errors : List (List Char)
  messages : List (List Char)
deriving DecidableEq

/-- The initial state built by `search`. -/
def initialState (q : List Char) : SearchState :=
  { original_query := q, decomposed_queries := [], variable_results := [],
    database_results := [], final_results := none, errors := [],
    messages := [] }

/-- `_decompose_node`.  The awaited decomposer call is passed as an
`Except`: the node's own `except` branch records an error and substitutes
the one-subquery fallback (in the composed agent the call never raises,
because `decompose` already catches everything). -/
def decompose_node (call : Except (List Char) DecomposeResult)
    (st : SearchState) : SearchState :=
  match call with
  | Except.ok d =>
    { st with decomposed_queries := d.search_queries.getD [] }
  | Except.error e =>
    { st with
      errors := st.errors ++ [strChars "Decomposition error: " ++ e],
      decomposed_queries := [fallbackSubquery st.original_query] }

/-- `f"Variable search error for '{query}': {str(e)}"`. -/
def variableSearchError (q e : List Char) : List Char :=
  strChars "Variable search error for " ++ [quoteChar] ++ q ++ [quoteChar] ++
    strChars ": " ++ e

/-- Stamping of one catalog match with its originating sub-query. -/
def stampMatch (q p : List Char) (row : CatalogRow) : MetadataMatch :=
  { row := row, search_query := q, search_purpose := p }

/-- Loop body of `_search_variables_node`: a successful store search appends
the stamped matches, a raising one appends one error message. -/
def svStep (store : List Char → Except (List Char) (List CatalogRow))
    (acc : List MetadataMatch × List (List Char)) (qi : SubQuery) :
    List MetadataMatch × List (List Char) :=
  match store qi.query with
  | Except.ok ms => (acc.1 ++ ms.map (stampMatch qi.query qi.purpose), acc.2)
  | Except.error e => (acc.1, acc.2 ++ [variableSearchError qi.query e])

/-- `_search_variables_node`: iterate the decomposed sub-queries in order,
searching the store with the singleton term set `[query]` (`limit=10`);
matches accumulate into `variable_results`, per-subquery failures append to
`errors` and the loop continues. -/
def search_variables_node (store : List Char → Except (List Char) (List CatalogRow))
    (st : SearchState) : SearchState :=
  let acc := st.decomposed_queries.foldl (svStep store) ([], st.errors)
  { st with variable_results := acc.1, errors := acc.2 }

/-- `f"Database search error for '{table_name}': {str(e)}"`. -/
def dbSearchError (t e : List Char) : List Char :=
  strChars "Database search error for " ++ [quoteChar] ++ t ++ [quoteChar] ++
    strChars ": " ++ e

/-- Keep the first occurrence of each name (`seen` are the already-emitted
names).  The source collects the names into a Python `set`, whose iteration
order is unspecified; first-appearance order is the canonical choice. -/
def dedupAux (seen : List (List Char)) : List (List Char) → List (List Char)
  | [] => []
  | x :: xs =>
    if x ∈ seen then dedupAux seen xs else x :: dedupAux (x :: seen) xs

/-- Distinct elements of a list of names, first occurrences kept. -/
def dedupFirst (l : List (List Char)) : List (List Char) := dedupAux [] l

/-- The tables visited by `_search_database_node`: the distinct non-empty
(`if var.get("table_name"):`) table names of the accumulated matches,
limited to the first 5 (`list(tables)[:5]`). -/
def tablesOf (vrs : List MetadataMatch) : List (List Char) :=
  (dedupFirst ((vrs.map (fun m => m.row.table_name)).filter
    (fun t => !t.isEmpty))).take 5

/-- The tables visited for a given run-state. -/
def selectedTables (st : SearchState) : List (List Char) :=
  tablesOf st.variable_results

/-- The `database_results` entry for one sampled table: row data and column
names, both emptied when the frame is empty (`if not sample.empty`). -/
def mkDBResult (t : List Char) (df : DataFrame) : DBResult :=
  { table_name := t,
    sample_data := if df.isEmptyDF then [] else df.rows,
    columns := if df.isEmptyDF then [] else df.columns }

/-- Loop body of `_search_database_node`. -/
def dbStep (sample : List Char → Except (List Char) DataFrame)
    (acc : List DBResult × List (List Char)) (t : List Char) :
    List DBResult × List (List Char) :=
  match sample t with
  | Except.ok df => (acc.1 ++ [mkDBResult t df], acc.2)
  | Except.error e => (acc.1, acc.2 ++ [dbSearchError t e])

/-- `_search_database_node`: sample (`limit=3`) each of the at most 5
selected tables; a per-table failure appends one error and omits the
entry. -/
def search_database_node (sample : List Char → Except (List Char) DataFrame)
    (st : SearchState) : SearchState :=
  let acc := (selectedTables st).foldl (dbStep sample) ([], st.errors)
  { st with database_results := acc.1, errors := acc.2 }

/-- Insert one match into the purpose groups (a Python dict in insertion
order, appending to the group when the key exists). -/
def addToGroup (groups : List (List Char × List MetadataMatch)) (key : List Char)
    (m : MetadataMatch) : List (List Char × List MetadataMatch) :=
  match groups with
  | [] => [(key, [m])]
  | (k, ms) :: rest =>
    if k = key then (k, ms ++ [m]) :: rest
    else (k, ms) :: addToGroup rest key m

/-- Grouping of `variable_results` by stamped purpose. -/
def groupByPurpose (l : List MetadataMatch) :
    List (List Char × List MetadataMatch) :=
  l.foldl (fun acc m => addToGroup acc m.search_purpose m) []

/-- `_aggregate_results_node`: builds `final_results` and leaves every other
field alone. -/
def aggregate_results_node (st : SearchState) : SearchState :=
  { st with
    final_results := some
      { query := st.original_query,
        decomposition := st.decomposed_queries,
        results_by_purpose := groupByPurpose st.variable_results,
        available_tables := st.database_results.map (fun r => r.table_name),
        total_matches := st.variable_results.length,
        errors := st.errors } }

/-- The external collaborators of one pipeline run: the JSON parser, the
language-model call outcome, the store search for a sub-query text, and the
table sampler. -/
structure Env where
  jsonParse : List Char → Option DecomposeResult
  llm : LLMOutcome
  store : List Char → Except (List Char) (List CatalogRow)
  sample : List Char → Except (List Char) DataFrame

/-- The compiled linear graph run on the initial state
(`decompose` → `search_variables` → `search_database` →
`aggregate_results`).  The decomposer call never raises, hence `Except.ok`. -/
def runPipeline (env : Env) (q : List Char) : SearchState :=
  aggregate_results_node
    (search_database_node env.sample
      (search_variables_node env.store
        (decompose_node (Except.ok (decompose env.jsonParse q env.llm))
          (initialState q))))

/-- `GeospatialSearchAgent.search`: run the graph and return
`final_state["final_results"]` (always set by the aggregate node; the
default is unreachable). -/
def search (env : Env) (q : List Char) : FinalResults :=
  match (runPipeline env q).final_results with
  | some r => r
  | none =>
    { query := q, decomposition := [], results_by_purpose := [],
      available_tables := [], total_matches := 0, errors := [] }

/-! ## Factor-generation script (`ollama_from_python.py`)

`FINAL_RESPONSE_REGEX = ">>> \*\*[^\*]+\*\*: .*"` — a match is
`">>> **"`, one or more non-star characters, `"**: "`, then the rest of the
line (`.` does not cross a newline).  Because the character class excludes
`*`, the backtracking search is deterministic: the class consumes a maximal
run of non-star characters and the literal tail either follows or the
position fails. -/

/-- `MAX_FACTORS = 8`. -/
def MAX_FACTORS : Nat := 8

/-- Try to match the factor regex at the start of `s`; on success return the
matched text and the remaining input. -/
def matchFactorAt (s : List Char) : Option (List Char × List Char) :=
  if (strChars ">>> **").isPrefixOf s then
    let s1 := s.drop 6
    let run := s1.takeWhile (fun c => c != '*')
    let s2 := s1.dropWhile (fun c => c != '*')
    if run.isEmpty then none
    else if (strChars "**: ").isPrefixOf s2 then
      let s3 := s2.drop 4
      some (strChars ">>> **" ++ run ++ strChars "**: " ++
        s3.takeWhile (fun c => c != '\n'), s3.dropWhile (fun c => c != '\n'))
    else none
  else none

/-- Scan of `re.findall`: at each position try the pattern, append the match
and continue after it, otherwise advance one character.  Every step consumes
input, so fuel equal to the length of the text suffices. -/
def findFactorsAux : Nat → List Char → List (List Char)
  | 0, _ => []
  | fuel + 1, s =>
    match matchFactorAt s with
    | some (m, rest) => m :: findFactorsAux fuel rest
    | none =>
      match s with
      | [] => []
      | _ :: s2 => findFactorsAux fuel s2

/-- `re.findall(FINAL_RESPONSE_REGEX, final_response)`. -/
def findFactors (s : List Char) : List (List Char) :=
  findFactorsAux s.length s

/-- `parse_final_response`: with no match, print and return `None`; with
more than `MAX_FACTORS` matches the branch evaluates the no-op indexing
expression `matches[MAX_FACTORS]` and falls off the end of the function,
which also returns `None`; otherwise return the full match list. -/
def parse_final_response (final_response : List Char) :
    Option (List (List Char)) :=
  let ms := findFactors final_response
  if ms.isEmpty then none
  else if MAX_FACTORS < ms.length then none
  else some ms

/-- Concatenation of the images of the elements of a list, the shape shared
by the accumulation loops of the pipeline nodes. -/
def concatMapL {α β : Type} (f : α → List β) : List α → List β
  | [] => []
  | x :: xs => f x ++ concatMapL f xs

/-- The stamped matches one sub-query contributes to `variable_results`
(none when the store search raises). -/
def subqueryMatches (store : List Char → Except (List Char) (List CatalogRow))
    (qi : SubQuery) : List MetadataMatch :=
  match store qi.query with
  | Except.ok ms => ms.map (stampMatch qi.query qi.purpose)
  | Except.error _ => []

/-- The error messages one sub-query contributes (one when the store search
raises, none otherwise). -/
def subqueryErrors (store : List Char → Except (List Char) (List CatalogRow))
    (qi : SubQuery) : List (List Char) :=
  match store qi.query with
  | Except.ok _ => []
  | Except.error e => [variableSearchError qi.query e]

/-- The entry one selected table contributes to `database_results` (none
when its sampling raises). -/
def tableEntry (sample : List Char → Except (List Char) DataFrame)
    (t : List Char) : List DBResult :=
  match sample t with
  | Except.ok df => [mkDBResult t df]
  | Except.error _ => []

/-- The error messages one selected table contributes (one when its
sampling raises, none otherwise). -/
def tableError (sample : List Char → Except (List Char) DataFrame)
    (t : List Char) : List (List Char) :=
  match sample t with
  | Except.ok _ => []
  | Except.error e => [dbSearchError t e]

/-! ## Concrete fixtures for witnesses and counterexamples -/

/-- A catalog row whose dataset name is `abc` and whose other searchable
fields match nothing. -/
def rowABC : CatalogRow :=
  { id := 1, dataset_name := strChars "abc", table_name := strChars "t1",
    source_path := strChars "/data/abc", geometry_type := strChars "POLYGON",
    row_count := some 10, column_list := [], crs := strChars "EPSG:4326",
    bbox := [], date_ingested := [] }

/-- A poverty-rate catalog row (table `poverty_a`). -/
def rowPovertyA : CatalogRow :=
  { id := 2, dataset_name := strChars "poverty rates", table_name := strChars "poverty_a",
    source_path := strChars "/data/pov_a", geometry_type := strChars "POLYGON",
    row_count := some 3000, column_list := [strChars "fips", strChars "poverty"],
    crs := strChars "EPSG:4326", bbox := [], date_ingested := [] }

/-- A second poverty catalog row (table `poverty_b`). -/
def rowPovertyB : CatalogRow :=
  { id := 3, dataset_name := strChars "poverty by county", table_name := strChars "poverty_b",
    source_path := strChars "/data/pov_b", geometry_type := strChars "MULTIPOLYGON",
    row_count := none, column_list := [strChars "fips", strChars "pov_rate"],
    crs := strChars "EPSG:4326", bbox := [], date_ingested := [] }

/-- A store that succeeds on `poverty` and raises on `population`. -/
def storePartial : List Char → Except (List Char) (List CatalogRow) :=
  fun q =>
    if q = strChars "poverty" then Except.ok [rowPovertyA, rowPovertyB]
    else if q = strChars "population" then Except.error (strChars "timeout")
    else Except.ok []

/-- A run-state holding two decomposed sub-queries, the second of which
`storePartial` fails on. -/
def stTwoQueries : SearchState :=
  { initialState (strChars "poverty by population") with
    decomposed_queries :=
      [{ query := strChars "poverty", purpose := strChars "primary" },
       { query := strChars "population", purpose := strChars "normalization" }] }

/-- A sampler that raises on `poverty_a` and succeeds elsewhere. -/
def samplePartial : List Char → Except (List Char) DataFrame :=
  fun t =>
    if t = strChars "poverty_a" then Except.error (strChars "disk error")
    else Except.ok { columns := [strChars "fips"], rows := [[strChars "01001"]] }

/-- A run-state whose accumulated matches reference the two poverty
tables. -/
def stTwoTables : SearchState :=
  { initialState (strChars "poverty by population") with
    variable_results :=
      [stampMatch (strChars "poverty") (strChars "primary") rowPovertyA,
       stampMatch (strChars "poverty") (strChars "primary") rowPovertyB] }

/-- An environment whose model answers with unparseable text. -/
def envBadJSON : Env :=
  { jsonParse := fun _ => none,
    llm := LLMOutcome.response (strChars "Sure! Here are the concepts."),
    store := storePartial,
    sample := fun _ => Except.ok emptyDataFrame }

/-- One factor line in the format demanded by the factor-generation
prompt. -/
def factorLine (c : Char) : List Char :=
  strChars ">>> **f" ++ [c] ++ strChars "**: x\n"

/-- A model response containing nine well-formed factor lines. -/
def nineFactors : List Char :=
  concatMapL factorLine ['1', '2', '3', '4', '5', '6', '7', '8', '9']

/-- The sub-query list produced by the decompose stage of a run. -/
def pipelineQueries (env : Env) (q : List Char) : List SubQuery :=
  (decompose env.jsonParse q env.llm).search_queries.getD []

/-- The stamped matches accumulated by the search_variables stage. -/
def pipelineMatches (env : Env) (q : List Char) : List MetadataMatch :=
  concatMapL (subqueryMatches env.store) (pipelineQueries env q)

/-- The tables visited by the search_database stage. -/
def pipelineTables (env : Env) (q : List Char) : List (List Char) :=
  tablesOf (pipelineMatches env q)

/-- The database entries accumulated by the search_database stage. -/
def pipelineDBResults (env : Env) (q : List Char) : List DBResult :=
  concatMapL (tableEntry env.sample) (pipelineTables env q)

/-- The error messages accumulated over a whole run. -/
def pipelineErrors (env : Env) (q : List Char) : List (List Char) :=
  concatMapL (subqueryErrors env.store) (pipelineQueries env q) ++
    concatMapL (tableError env.sample) (pipelineTables env q)

/-- The substring reading of the spec: the term occurs case-insensitively
in the dataset name, the table name, or some column name. -/
def rowContainsCI (t : List Char) (row : CatalogRow) : Bool :=
  occursIn (lowerStr t) (lowerStr row.dataset_name) ||
    occursIn (lowerStr t) (lowerStr row.table_name) ||
    row.column_list.any (fun c => occursIn (lowerStr t) (lowerStr c))

/-! ## Lemmas: lowering and LIKE soundness -/

/-- Lowering can only move a code point into the lowercase-letter range;
any character below that range is fixed, so a special character (such as a
LIKE wildcard) can only be the image of itself. -/
theorem lowerChar_eq_of_lt (c s : Char) (hs : s.toNat < 97)
    (h : lowerChar c = s) : c = s := by
  unfold lowerChar Char.toLower at h
  change (if c.toNat ≥ 65 ∧ c.toNat ≤ 90 then Char.ofNat (c.toNat + 32) else c) = s at h
  by_cases hr : c.toNat ≥ 65 ∧ c.toNat ≤ 90
  · rw [if_pos hr] at h
    have hv : (Char.toNat c + 32).isValidChar := Or.inl (by omega)
    rw [Char.ofNat, dif_pos hv] at h
    have h2 : Char.toNat c + 32 = s.toNat := congrArg Char.toNat h
    omega
  · rw [if_neg hr] at h
    exact h

/-- Lowercasing a wildcard-free term keeps it wildcard-free. -/
theorem noWildcards_lowerStr (t : List Char) (h : noWildcards t = true) :
    noWildcards (lowerStr t) = true := by
  unfold noWildcards lowerStr at *
  rw [List.all_map]
  rw [List.all_eq_true] at h ⊢
  intro c hc
  have h1 := h c hc
  simp only [Function.comp, Bool.and_eq_true, bne_iff_ne, ne_eq] at h1 ⊢
  exact ⟨⟨fun hp => h1.1.1 (lowerChar_eq_of_lt c '%' (by decide) hp),
    fun hp => h1.1.2 (lowerChar_eq_of_lt c '_' (by decide) hp)⟩,
    fun hp => h1.2 (lowerChar_eq_of_lt c '\\' (by decide) hp)⟩

/-- A wildcard-free text lexes to literal tokens. -/
theorem lexPattern_lit (t : List Char) (h : noWildcards t = true)
    (rest : List Char) :
    lexPattern (t ++ rest) = t.map LikeTok.lit ++ lexPattern rest := by
  induction t with
  | nil => rfl
  | cons c t ih =>
    rw [noWildcards, List.all_cons, Bool.and_eq_true] at h
    have hc := h.1
    simp only [Bool.and_eq_true, bne_iff_ne, ne_eq] at hc
    have ih2 := ih (by rw [noWildcards]; exact h.2)
    simp only [List.cons_append, List.map_cons]
    rw [lexPattern.eq_def]
    dsimp only
    rw [if_neg hc.2, if_neg hc.1.1, if_neg hc.1.2, ih2]

/-- Every member of `suffixes s` is a suffix of `s`. -/
theorem mem_suffixes (s2 s : List Char) (h : s2 ∈ suffixes s) :
    ∃ u, u ++ s2 = s := by
  induction s with
  | nil =>
    simp only [suffixes, List.mem_singleton] at h
    exact ⟨[], by simp [h]⟩
  | cons c s ih =>
    simp only [suffixes, List.mem_cons] at h
    cases h with
    | inl h => exact ⟨[], by simp [h]⟩
    | inr h =>
      obtain ⟨u, hu⟩ := ih h
      exact ⟨c :: u, by simp [hu]⟩

/-- A run of literal tokens followed by `%` forces the literal text to be a
prefix of the subject. -/
theorem likeRun_lit_sound (t : List Char) : ∀ s : List Char,
    likeRun (t.map LikeTok.lit ++ [LikeTok.any]) s = true → ∃ v, t ++ v = s := by
  induction t with
  | nil => intro s _; exact ⟨s, rfl⟩
  | cons c t ih =>
    intro s h
    cases s with
    | nil => simp [List.map_cons, List.cons_append, likeRun] at h
    | cons d s2 =>
      simp only [List.map_cons, List.cons_append, likeRun,
        Bool.and_eq_true, beq_iff_eq] at h
      obtain ⟨v, hv⟩ := ih s2 h.2
      exact ⟨v, by simp [h.1, hv]⟩

/-- Soundness of the built `'%term%'` pattern: a wildcard-free term that
LIKE-matches a string occurs in it contiguously. -/
theorem likeMatch_pattern_sound (t s : List Char) (hw : noWildcards t = true)
    (h : likeMatch ('%' :: (t ++ ['%'])) s = true) : ∃ u v, u ++ t ++ v = s := by
  unfold likeMatch at h
  have hlex : lexPattern ('%' :: (t ++ ['%'])) =
      LikeTok.any :: (t.map LikeTok.lit ++ [LikeTok.any]) := by
    rw [lexPattern.eq_def]
    dsimp only
    rw [if_neg (by decide), if_pos rfl, lexPattern_lit t hw]
    rfl
  rw [hlex] at h
  simp only [likeRun, List.any_eq_true] at h
  obtain ⟨s2, hs2, hrun⟩ := h
  obtain ⟨u, hu⟩ := mem_suffixes s2 s hs2
  obtain ⟨v, hv⟩ := likeRun_lit_sound t s2 hrun
  exact ⟨u, v, by rw [List.append_assoc, hv, hu]⟩

/-- The empty string occurs in every string. -/
theorem occursIn_nil (s : List Char) : occursIn [] s = true := by
  cases s with
  | nil => rfl
  | cons c s => simp [occursIn]

/-- A list is a `isPrefixOf`-prefix of itself followed by anything. -/
theorem isPrefixOf_self_append (t v : List Char) :
    t.isPrefixOf (t ++ v) = true := by
  induction t with
  | nil => simp
  | cons c t ih => simp [List.isPrefixOf_cons₂, ih]

/-- Explicit occurrence witnesses make `occursIn` true. -/
theorem occursIn_of_append (u t v : List Char) :
    occursIn t (u ++ t ++ v) = true := by
  induction u with
  | nil =>
    cases t with
    | nil => simp [occursIn_nil]
    | cons c t =>
      simp only [List.nil_append, List.cons_append, occursIn, Bool.or_eq_true]
      exact Or.inl (isPrefixOf_self_append (c :: t) v)
  | cons c u ih =>
    simp only [List.cons_append, occursIn, Bool.or_eq_true]
    exact Or.inr ih

/-! ## Lemmas: list plumbing for the store and the pipeline -/

/-- Insertion keeps the members of the sorted list. -/
theorem mem_insertByRowCount (a r : CatalogRow) (l : List CatalogRow)
    (h : a ∈ insertByRowCount r l) : a = r ∨ a ∈ l := by
  induction l with
  | nil =>
    simp only [insertByRowCount, List.mem_singleton] at h
    exact Or.inl h
  | cons x xs ih =>
    simp only [insertByRowCount] at h
    split at h
    · rcases List.mem_cons.mp h with h1 | h1
      · exact Or.inl h1
      · exact Or.inr h1
    · rcases List.mem_cons.mp h with h1 | h1
      · exact Or.inr (by simp [h1])
      · rcases ih h1 with h2 | h2
        · exact Or.inl h2
        · exact Or.inr (List.mem_cons_of_mem x h2)

/-- The sort does not invent rows. -/
theorem mem_sortByRowCount (a : CatalogRow) (l : List CatalogRow)
    (h : a ∈ sortByRowCount l) : a ∈ l := by
  induction l with
  | nil => simp [sortByRowCount] at h
  | cons x xs ih =>
    rcases mem_insertByRowCount a x (sortByRowCount xs) h with h1 | h1
    · simp [h1]
    · exact List.mem_cons_of_mem x (ih h1)

/-- A member of a `take` is a member. -/
theorem mem_of_take {α : Type} (n : Nat) (l : List α) (a : α)
    (h : a ∈ l.take n) : a ∈ l := by
  induction l generalizing n with
  | nil => simp at h
  | cons x xs ih =>
    cases n with
    | zero => simp at h
    | succ n =>
      rcases List.mem_cons.mp h with h1 | h1
      · simp [h1]
      · exact List.mem_cons_of_mem x (ih n h1)

/-- Deduplication does not invent names. -/
theorem mem_of_dedupAux (a : List Char) (seen l : List (List Char))
    (h : a ∈ dedupAux seen l) : a ∈ l := by
  induction l generalizing seen with
  | nil => simp [dedupAux] at h
  | cons x xs ih =>
    simp only [dedupAux] at h
    split at h
    · exact List.mem_cons_of_mem x (ih _ h)
    · rcases List.mem_cons.mp h with h1 | h1
      · simp [h1]
      · exact List.mem_cons_of_mem x (ih _ h1)

/-- Length of a concatenation of images. -/
theorem length_concatMapL {α β : Type} (f : α → List β) (l : List α) :
    (concatMapL f l).length = (l.map (fun x => (f x).length)).sum := by
  induction l with
  | nil => rfl
  | cons x xs ih => simp [concatMapL, ih]

/-- Membership in a concatenation of images. -/
theorem mem_concatMapL {α β : Type} (f : α → List β) (l : List α) (b : β) :
    b ∈ concatMapL f l ↔ ∃ a, a ∈ l ∧ b ∈ f a := by
  induction l with
  | nil => simp [concatMapL]
  | cons x xs ih =>
    simp only [concatMapL, List.mem_append, ih, List.mem_cons]
    constructor
    · rintro (h | ⟨a, ha, hb⟩)
      · exact ⟨x, Or.inl rfl, h⟩
      · exact ⟨a, Or.inr ha, hb⟩
    · rintro ⟨a, ha | ha, hb⟩
      · exact Or.inl (ha ▸ hb)
      · exact Or.inr ⟨a, ha, hb⟩

/-- A concatenation of empty images is empty. -/
theorem concatMapL_eq_nil {α β : Type} (f : α → List β) (l : List α)
    (h : ∀ a, a ∈ l → f a = []) : concatMapL f l = [] := by
  induction l with
  | nil => rfl
  | cons x xs ih =>
    simp only [concatMapL, h x (by simp), List.nil_append]
    exact ih (fun a ha => h a (List.mem_cons_of_mem x ha))

/-- When every element except the one at position `i` has an empty image,
the concatenation is exactly the image of that element. -/
theorem concatMapL_eq_single {α β : Type} (f : α → List β) (l : List α)
    (i : Nat) (hi : i < l.length)
    (h : ∀ j, (hj : j < l.length) → j ≠ i → f (l.get ⟨j, hj⟩) = []) :
    concatMapL f l = f (l.get ⟨i, hi⟩) := by
  induction l generalizing i with
  | nil => simp at hi
  | cons x xs ih =>
    cases i with
    | zero =>
      have hrest : concatMapL f xs = [] := by
        refine concatMapL_eq_nil f xs (fun a ha => ?_)
        obtain ⟨j, hj, rfl⟩ := List.mem_iff_get.mp ha
        exact h (j + 1) (Nat.succ_lt_succ j.isLt) (by omega)
      simp [concatMapL, hrest]
    | succ i =>
      have hx : f x = [] := h 0 (by simp) (by omega)
      have hi2 : i < xs.length := by simpa using hi
      simp only [concatMapL, hx, List.nil_append]
      exact ih i hi2 (fun j hj hne =>
        h (j + 1) (Nat.succ_lt_succ hj) (by omega))

/-- Closed form of the `_search_variables_node` loop. -/
theorem foldl_svStep (store : List Char → Except (List Char) (List CatalogRow))
    (qs : List SubQuery) : ∀ r0 e0,
    qs.foldl (svStep store) (r0, e0) =
      (r0 ++ concatMapL (subqueryMatches store) qs,
        e0 ++ concatMapL (subqueryErrors store) qs) := by
  induction qs with
  | nil => intro r0 e0; simp [concatMapL]
  | cons q qs ih =>
    intro r0 e0
    rcases hq : store q.query with e | ms
    · simp [svStep, hq, ih, concatMapL, subqueryMatches, subqueryErrors]
    · simp [svStep, hq, ih, concatMapL, subqueryMatches, subqueryErrors]

/-- `_search_variables_node` appends the per-subquery matches to
`variable_results` and the per-subquery error messages to `errors`, leaving
every other field alone. -/
theorem search_variables_node_eq
    (store : List Char → Except (List Char) (List CatalogRow))
    (st : SearchState) :
    search_variables_node store st =
      { st with
        variable_results := concatMapL (subqueryMatches store) st.decomposed_queries,
        errors := st.errors ++ concatMapL (subqueryErrors store) st.decomposed_queries } := by
  unfold search_variables_node
  rw [foldl_svStep]
  simp

/-- Closed form of the `_search_database_node` loop. -/
theorem foldl_dbStep (sample : List Char → Except (List Char) DataFrame)
    (ts : List (List Char)) : ∀ r0 e0,
    ts.foldl (dbStep sample) (r0, e0) =
      (r0 ++ concatMapL (tableEntry sample) ts,
        e0 ++ concatMapL (tableError sample) ts) := by
  induction ts with
  | nil => intro r0 e0; simp [concatMapL]
  | cons t ts ih =>
    intro r0 e0
    rcases ht : sample t with e | df
    · simp [dbStep, ht, ih, concatMapL, tableEntry, tableError]
    · simp [dbStep, ht, ih, concatMapL, tableEntry, tableError]

/-- `_search_database_node` appends the per-table entries to
`database_results` and the per-table error messages to `errors`, leaving
every other field alone. -/
theorem search_database_node_eq
    (sample : List Char → Except (List Char) DataFrame) (st : SearchState) :
    search_database_node sample st =
      { st with
        database_results := concatMapL (tableEntry sample) (selectedTables st),
        errors := st.errors ++ concatMapL (tableError sample) (selectedTables st) } := by
  unfold search_database_node
  rw [foldl_dbStep]
  simp

/-- A selected table name is the table name of some accumulated match. -/
theorem mem_tablesOf (vrs : List MetadataMatch) (t : List Char)
    (h : t ∈ tablesOf vrs) :
    ∃ m, m ∈ vrs ∧ m.row.table_name = t := by
  have h1 := mem_of_take 5 _ t h
  have h2 := mem_of_dedupAux t [] _ h1
  have h3 := List.mem_of_mem_filter h2
  obtain ⟨m, hm, hmt⟩ := List.mem_map.mp h3
  exact ⟨m, hm, hmt⟩

/-- A selected table name is the table name of some accumulated match. -/
theorem selectedTables_sound (st : SearchState) (t : List Char)
    (h : t ∈ selectedTables st) :
    ∃ m, m ∈ st.variable_results ∧ m.row.table_name = t :=
  mem_tablesOf st.variable_results t h

/-- At most one entry per selected table. -/
theorem length_concatMapL_tableEntry
    (sample : List Char → Except (List Char) DataFrame) (ts : List (List Char)) :
    (concatMapL (tableEntry sample) ts).length ≤ ts.length := by
  induction ts with
  | nil => simp [concatMapL]
  | cons t ts ih =>
    rcases ht : sample t with e | df
    · simpa [concatMapL, tableEntry, ht] using Nat.le_succ_of_le ih
    · simpa [concatMapL, tableEntry, ht] using Nat.succ_le_succ ih

/-! ## Claims -/

/-- C2: when the model's textual response cannot be parsed as JSON after
fence stripping, or the call itself raises, `QueryDecomposer.decompose`
returns the one-subquery fallback whose `search_queries` is
`[{"query": original text, "purpose": "primary"}]`; being a total function
of the call outcome, it never raises to the caller. -/
theorem decompose_fallback_on_failure
    (jsonParse : List Char → Option DecomposeResult) (q : List Char) :
    (∀ content, jsonParse (pyStrip (stripFences content)) = none →
      decompose jsonParse q (LLMOutcome.response content) = fallbackDecomposition q)
    ∧ (∀ err, decompose jsonParse q (LLMOutcome.failure err) = fallbackDecomposition q)
    ∧ (fallbackDecomposition q).search_queries =
        some [{ query := q, purpose := strChars "primary" }] := by
  refine ⟨fun content h => ?_, fun err => rfl, rfl⟩
  simp [decompose, h]

/-- Witness for C2 at a concrete unparseable response. -/
theorem decompose_fallback_on_failure_witness :
    decompose (fun _ => none) (strChars "poverty rate")
        (LLMOutcome.response (strChars "Sure! Here you go.")) =
      fallbackDecomposition (strChars "poverty rate") :=
  (decompose_fallback_on_failure (fun _ => none) (strChars "poverty rate")).1
    (strChars "Sure! Here you go.") rfl

/-- C3 counterexample: a failing table sample is caught and returns an
empty frame, but the operation performs no rollback (second component
`false`), contradicting the claim that every operation rolls back on
failure. -/
theorem store_rollback_cex :
    (get_table_sample (fun _ => Except.error (strChars "connection lost"))
        (strChars "tracts") none 5).1 = emptyDataFrame ∧
    (get_table_sample (fun _ => Except.error (strChars "connection lost"))
        (strChars "tracts") none 5).2 = false :=
  ⟨rfl, rfl⟩

/-- C3 (amended): every store operation catches a query failure and returns
an empty result (empty list, empty frame, empty mapping) instead of
propagating; the cursor-backed operations (metadata search, column search,
statistics) additionally roll back the shared connection, while the
engine-backed operations (table sample, join) perform no rollback. -/
theorem store_error_policy :
    (∀ catalog terms geometry_type limit,
      search_metadata catalog terms geometry_type limit false = ([], true))
    ∧ (∀ catalog patterns limit,
      search_columns catalog patterns limit false = ([], true))
    ∧ (∀ rowsExec group_by e, rowsExec = Except.error e →
      get_statistics rowsExec group_by = (StatsResult.mapping [], true))
    ∧ (∀ engine table_name columns limit e,
      engine (buildSampleQuery table_name columns limit) = Except.error e →
      get_table_sample engine table_name columns limit = (emptyDataFrame, false))
    ∧ (∀ engine t1 t2 f1 f2 sel limit e,
      engine (buildJoinQuery t1 t2 f1 f2 sel limit) = Except.error e →
      join_tables_by_fips engine t1 t2 f1 f2 sel limit = (emptyDataFrame, false)) := by
  refine ⟨fun catalog terms geometry_type limit => by simp [search_metadata],
    fun catalog patterns limit => rfl,
    fun rowsExec group_by e he => by simp [get_statistics, he],
    fun engine table_name columns limit e he => by simp [get_table_sample, he],
    fun engine t1 t2 f1 f2 sel limit e he => by simp [join_tables_by_fips, he]⟩

/-- Witness for C3 at concrete failing operations. -/
theorem store_error_policy_witness :
    search_metadata [rowABC] [strChars "school"] none 20 false = ([], true) ∧
    get_statistics (Except.error (strChars "bad column")) none =
      (StatsResult.mapping [], true) ∧
    get_table_sample (fun _ => Except.error (strChars "db down"))
      (strChars "t") none 5 = (emptyDataFrame, false) ∧
    join_tables_by_fips (fun _ => Except.error (strChars "db down"))
      (strChars "a") (strChars "b") (strChars "fips") (strChars "fips") none 100 =
      (emptyDataFrame, false) :=
  ⟨store_error_policy.1 [rowABC] [strChars "school"] none 20,
   store_error_policy.2.2.1 _ none (strChars "bad column") rfl,
   store_error_policy.2.2.2.1 _ (strChars "t") none 5 (strChars "db down") rfl,
   store_error_policy.2.2.2.2 _ (strChars "a") (strChars "b") (strChars "fips")
     (strChars "fips") none 100 (strChars "db down") rfl⟩

/-- C9: each of the four pipeline nodes leaves `original_query` unchanged
and only appends to `errors` (the input error list is a prefix of the
output error list). -/
theorem nodes_frame :
    (∀ call st, (decompose_node call st).original_query = st.original_query ∧
      ∃ tail, (decompose_node call st).errors = st.errors ++ tail)
    ∧ (∀ store st,
      (search_variables_node store st).original_query = st.original_query ∧
      ∃ tail, (search_variables_node store st).errors = st.errors ++ tail)
    ∧ (∀ sample st,
      (search_database_node sample st).original_query = st.original_query ∧
      ∃ tail, (search_database_node sample st).errors = st.errors ++ tail)
    ∧ (∀ st, (aggregate_results_node st).original_query = st.original_query ∧
      ∃ tail, (aggregate_results_node st).errors = st.errors ++ tail) := by
  refine ⟨fun call st => ?_, fun store st => ?_, fun sample st => ?_, fun st => ?_⟩
  · cases call with
    | ok d => exact ⟨rfl, [], by simp [decompose_node]⟩
    | error e => exact ⟨rfl, [strChars "Decomposition error: " ++ e], rfl⟩
  · rw [search_variables_node_eq]
    exact ⟨rfl, concatMapL (subqueryErrors store) st.decomposed_queries, rfl⟩
  · rw [search_database_node_eq]
    exact ⟨rfl, concatMapL (tableError sample) (selectedTables st), rfl⟩
  · exact ⟨rfl, [], by simp [aggregate_results_node]⟩

/-- C10 counterexample: on a response with nine well-formed factor lines
the regex finds nine matches, yet `parse_final_response` returns `None`
rather than the full (or any) match list. -/
theorem parse_final_response_cex :
    (findFactors nineFactors).length = 9 ∧
    parse_final_response nineFactors = none := by
  constructor
  · decide
  · decide

/-- C10 (amended): the indexing expression discards nothing, but the
enclosing branch returns nothing either — when the regex finds more than
`MAX_FACTORS` matches the function falls through and returns `None`; the
full untruncated match list is returned exactly when the regex finds
between 1 and `MAX_FACTORS` matches. -/
theorem parse_final_response_characterization (s : List Char) :
    (findFactors s ≠ [] → (findFactors s).length ≤ MAX_FACTORS →
      parse_final_response s = some (findFactors s))
    ∧ (MAX_FACTORS < (findFactors s).length → parse_final_response s = none)
    ∧ (findFactors s = [] → parse_final_response s = none) := by
  refine ⟨fun h1 h2 => ?_, fun h2 => ?_, fun h1 => ?_⟩
  · simp only [parse_final_response]
    rw [if_neg (by simpa using h1), if_neg (by omega)]
  · simp only [parse_final_response]
    by_cases h1 : findFactors s = []
    · rw [if_pos (by simp [h1])]
    · rw [if_neg (by simpa using h1), if_pos h2]
  · simp [parse_final_response, h1]

/-- Witness for C10: a single factor line is returned in full, and the
nine-line response yields `None`. -/
theorem parse_final_response_witness :
    parse_final_response (factorLine '1') = some (findFactors (factorLine '1')) ∧
    parse_final_response nineFactors = none :=
  ⟨(parse_final_response_characterization (factorLine '1')).1 (by decide) (by decide),
   (parse_final_response_characterization nineFactors).2.1 (by decide)⟩

/-- Closed form of a whole pipeline run. -/
theorem runPipeline_eq (env : Env) (q : List Char) :
    runPipeline env q =
      { original_query := q,
        decomposed_queries := pipelineQueries env q,
        variable_results := pipelineMatches env q,
        database_results := pipelineDBResults env q,
        final_results := some
          { query := q,
            decomposition := pipelineQueries env q,
            results_by_purpose := groupByPurpose (pipelineMatches env q),
            available_tables :=
              (pipelineDBResults env q).map (fun r => r.table_name),
            total_matches := (pipelineMatches env q).length,
            errors := pipelineErrors env q },
        errors := pipelineErrors env q,
        messages := [] } := by
  unfold runPipeline
  rw [show decompose_node (Except.ok (decompose env.jsonParse q env.llm))
      (initialState q) =
      { initialState q with decomposed_queries := pipelineQueries env q } from rfl]
  rw [search_variables_node_eq, search_database_node_eq]
  simp only [aggregate_results_node, initialState, selectedTables]
  rfl

/-- Closed form of `search`. -/
theorem search_eq (env : Env) (q : List Char) :
    search env q =
      { query := q,
        decomposition := pipelineQueries env q,
        results_by_purpose := groupByPurpose (pipelineMatches env q),
        available_tables := (pipelineDBResults env q).map (fun r => r.table_name),
        total_matches := (pipelineMatches env q).length,
        errors := pipelineErrors env q } := by
  unfold search
  rw [runPipeline_eq]

/-- Length contributed by one sub-query. -/
theorem length_subqueryMatches
    (store : List Char → Except (List Char) (List CatalogRow)) (qi : SubQuery) :
    (subqueryMatches store qi).length =
      match store qi.query with
      | Except.ok ms => ms.length
      | Except.error _ => 0 := by
  rcases h : store qi.query with e | ms <;> simp [subqueryMatches, h]

/-- An entry produced for a table carries that table's name and a
successful sample. -/
theorem tableEntry_mem (sample : List Char → Except (List Char) DataFrame)
    (t : List Char) (r : DBResult) (h : r ∈ tableEntry sample t) :
    r.table_name = t ∧ ∃ df, sample t = Except.ok df ∧ r = mkDBResult t df := by
  rcases hs : sample t with e | df
  · simp [tableEntry, hs] at h
  · simp only [tableEntry, hs, List.mem_singleton] at h
    exact ⟨by simp [h, mkDBResult], df, rfl, h⟩

/-- C4: the final `total_matches` equals the length of the concatenated
`variable_results`, which equals the sum over the decomposed sub-queries,
in order, of the number of matches the store search returned for that
sub-query (0 for a sub-query whose search raised). -/
theorem total_matches_spec (env : Env) (q : List Char) :
    (search env q).total_matches = (runPipeline env q).variable_results.length ∧
    (search env q).total_matches =
      ((runPipeline env q).decomposed_queries.map (fun qi =>
        match env.store qi.query with
        | Except.ok ms => ms.length
        | Except.error _ => 0)).sum := by
  rw [search_eq, runPipeline_eq]
  refine ⟨rfl, ?_⟩
  show (pipelineMatches env q).length = _
  rw [pipelineMatches, length_concatMapL]
  simp only [length_subqueryMatches]

/-- C6: the final state's `database_results` has at most 5 entries, and the
table name of every entry is the table name of some match in
`variable_results`. -/
theorem database_results_spec (env : Env) (q : List Char) :
    (runPipeline env q).database_results.length ≤ 5 ∧
    ∀ r, r ∈ (runPipeline env q).database_results →
      ∃ m, m ∈ (runPipeline env q).variable_results ∧
        m.row.table_name = r.table_name := by
  rw [runPipeline_eq]
  constructor
  · calc (pipelineDBResults env q).length
        ≤ (pipelineTables env q).length := length_concatMapL_tableEntry _ _
      _ ≤ 5 := by
        rw [pipelineTables, tablesOf, List.length_take]
        exact Nat.min_le_left 5 _
  · intro r hr
    rw [pipelineDBResults, mem_concatMapL] at hr
    obtain ⟨t, ht, hrt⟩ := hr
    obtain ⟨hname, _⟩ := tableEntry_mem env.sample t r hrt
    obtain ⟨m, hm, hmt⟩ := mem_tablesOf (pipelineMatches env q) t ht
    exact ⟨m, hm, by rw [hmt, hname]⟩

/-- Witness for C6 (its conclusion carries embedded membership
hypotheses): at a concrete run, the bound and the table-name containment
hold. -/
theorem database_results_spec_witness :
    (runPipeline envBadJSON (strChars "poverty")).database_results.length ≤ 5 ∧
    ∃ m, m ∈ (runPipeline envBadJSON (strChars "poverty")).variable_results ∧
      m.row.table_name = strChars "poverty_a" := by
  refine ⟨(database_results_spec envBadJSON (strChars "poverty")).1, ?_⟩
  exact ⟨stampMatch (strChars "poverty") (strChars "primary") rowPovertyA,
    by decide, by decide⟩

/-- C7: when the store search raises for exactly one sub-query, the
search_variables stage appends exactly one new error message, that message
contains the failing sub-query's text, the failing sub-query contributes
zero matches (its contribution is empty and no accumulated match is stamped
with its query text), and every match of every other sub-query is still
present. -/
theorem single_subquery_failure
    (store : List Char → Except (List Char) (List CatalogRow))
    (st : SearchState) (i : Nat) (hi : i < st.decomposed_queries.length)
    (e : List Char)
    (hfail : store (st.decomposed_queries.get ⟨i, hi⟩).query = Except.error e)
    (hok : ∀ j, (hj : j < st.decomposed_queries.length) → j ≠ i →
      ∃ ms, store (st.decomposed_queries.get ⟨j, hj⟩).query = Except.ok ms) :
    (search_variables_node store st).errors =
      st.errors ++
        [variableSearchError (st.decomposed_queries.get ⟨i, hi⟩).query e] ∧
    (∃ u v, u ++ (st.decomposed_queries.get ⟨i, hi⟩).query ++ v =
      variableSearchError (st.decomposed_queries.get ⟨i, hi⟩).query e) ∧
    subqueryMatches store (st.decomposed_queries.get ⟨i, hi⟩) = [] ∧
    (∀ m, m ∈ (search_variables_node store st).variable_results →
      m.search_query ≠ (st.decomposed_queries.get ⟨i, hi⟩).query) ∧
    (∀ j, (hj : j < st.decomposed_queries.length) → j ≠ i → ∀ ms,
      store (st.decomposed_queries.get ⟨j, hj⟩).query = Except.ok ms →
      ∀ m, m ∈ ms →
        stampMatch (st.decomposed_queries.get ⟨j, hj⟩).query
            (st.decomposed_queries.get ⟨j, hj⟩).purpose m ∈
          (search_variables_node store st).variable_results) := by
  have hsingle : concatMapL (subqueryErrors store) st.decomposed_queries =
      subqueryErrors store (st.decomposed_queries.get ⟨i, hi⟩) := by
    refine concatMapL_eq_single _ _ i hi (fun j hj hne => ?_)
    obtain ⟨ms, hms⟩ := hok j hj hne
    unfold subqueryErrors
    rw [hms]
  refine ⟨?_, ?_, ?_, ?_, ?_⟩
  · rw [search_variables_node_eq]
    show st.errors ++ concatMapL (subqueryErrors store) st.decomposed_queries = _
    rw [hsingle]
    unfold subqueryErrors
    rw [hfail]
  · exact ⟨strChars "Variable search error for " ++ [quoteChar],
      [quoteChar] ++ strChars ": " ++ e, by
        simp [variableSearchError, List.append_assoc]⟩
  · unfold subqueryMatches
    rw [hfail]
  · intro m hm hcontra
    rw [search_variables_node_eq] at hm
    have hm2 : m ∈ concatMapL (subqueryMatches store) st.decomposed_queries := hm
    rw [mem_concatMapL] at hm2
    obtain ⟨qj, _, hmj⟩ := hm2
    rcases hs : store qj.query with e2 | ms
    · unfold subqueryMatches at hmj
      rw [hs] at hmj
      exact absurd hmj (List.not_mem_nil m)
    · unfold subqueryMatches at hmj
      rw [hs] at hmj
      obtain ⟨r, _, hrm⟩ := List.mem_map.mp hmj
      have hq : m.search_query = qj.query := by rw [← hrm]; rfl
      have heq : qj.query = (st.decomposed_queries.get ⟨i, hi⟩).query := by
        rw [← hq, hcontra]
      rw [heq, hfail] at hs
      exact Except.noConfusion hs
  · intro j hj hne ms hms m hm
    rw [search_variables_node_eq]
    show _ ∈ concatMapL (subqueryMatches store) st.decomposed_queries
    rw [mem_concatMapL]
    refine ⟨st.decomposed_queries.get ⟨j, hj⟩, List.get_mem _ _ _, ?_⟩
    unfold subqueryMatches
    rw [hms]
    exact List.mem_map.mpr ⟨m, hm, rfl⟩

/-- Witness for C7: with `storePartial` failing on the second sub-query of
`stTwoQueries`, the errors are exactly the one message for `population`, no
accumulated match is stamped with `population`, and the matches for
`poverty` survive. -/
theorem single_subquery_failure_witness :
    (search_variables_node storePartial stTwoQueries).errors =
      [variableSearchError (strChars "population") (strChars "timeout")] ∧
    (∀ m, m ∈ (search_variables_node storePartial stTwoQueries).variable_results →
      m.search_query ≠ strChars "population") ∧
    stampMatch (strChars "poverty") (strChars "primary") rowPovertyA ∈
      (search_variables_node storePartial stTwoQueries).variable_results := by
  have h := single_subquery_failure storePartial stTwoQueries 1 (by decide)
    (strChars "timeout") rfl
    (fun j hj hne => by
      have hj2 : j < 2 := by simpa [stTwoQueries] using hj
      have hj0 : j = 0 := by omega
      subst hj0
      exact ⟨[rowPovertyA, rowPovertyB], rfl⟩)
  exact ⟨h.1, h.2.2.2.1,
    h.2.2.2.2 0 (by decide) (by decide) [rowPovertyA, rowPovertyB] rfl
      rowPovertyA (by decide)⟩

/-- C8: in the search_database stage, a table whose sampling raises
contributes exactly one error message and no entry to `database_results`,
while every other selected table's entry is still produced. -/
theorem single_table_failure
    (sample : List Char → Except (List Char) DataFrame) (st : SearchState)
    (t : List Char) (e : List Char) (_ht : t ∈ selectedTables st)
    (hfail : sample t = Except.error e) :
    (search_database_node sample st).errors =
      st.errors ++ concatMapL (tableError sample) (selectedTables st) ∧
    tableError sample t = [dbSearchError t e] ∧
    (∀ r, r ∈ (search_database_node sample st).database_results →
      r.table_name ≠ t) ∧
    (∀ t2, t2 ∈ selectedTables st → ∀ df, sample t2 = Except.ok df →
      mkDBResult t2 df ∈ (search_database_node sample st).database_results) := by
  refine ⟨?_, ?_, ?_, ?_⟩
  · rw [search_database_node_eq]
  · unfold tableError
    rw [hfail]
  · intro r hr
    rw [search_database_node_eq] at hr
    have hr2 : r ∈ concatMapL (tableEntry sample) (selectedTables st) := hr
    rw [mem_concatMapL] at hr2
    obtain ⟨t2, _, hrt⟩ := hr2
    obtain ⟨hname, df, hdf, _⟩ := tableEntry_mem sample t2 r hrt
    intro hcontra
    rw [hcontra] at hname
    rw [← hname] at hdf
    rw [hfail] at hdf
    exact Except.noConfusion hdf
  · intro t2 ht2 df hdf
    rw [search_database_node_eq]
    show _ ∈ concatMapL (tableEntry sample) (selectedTables st)
    rw [mem_concatMapL]
    exact ⟨t2, ht2, by simp [tableEntry, hdf]⟩

/-- Witness for C8: with `samplePartial` failing on `poverty_a`, the run
records one error for it and still produces the entry for `poverty_b`. -/
theorem single_table_failure_witness :
    tableError samplePartial (strChars "poverty_a") =
      [dbSearchError (strChars "poverty_a") (strChars "disk error")] ∧
    mkDBResult (strChars "poverty_b")
        { columns := [strChars "fips"], rows := [[strChars "01001"]] } ∈
      (search_database_node samplePartial stTwoTables).database_results := by
  have h := single_table_failure samplePartial stTwoTables
    (strChars "poverty_a") (strChars "disk error") (by decide) rfl
  exact ⟨h.2.1, h.2.2.2 (strChars "poverty_b") (by decide) _ rfl⟩

/-- C5 counterexample: the term `a_c` contains the LIKE wildcard `_`, so
`search_metadata` returns the `abc` row even though no field of that row
contains `a_c` as a substring — the claim's substring reading fails for
terms containing LIKE wildcards. -/
theorem search_metadata_substring_cex :
    search_metadata [rowABC] [strChars "a_c"] none 20 true = ([rowABC], false) ∧
    rowContainsCI (strChars "a_c") rowABC = false := by
  constructor
  · decide
  · decide

/-- C5 (amended): for terms free of LIKE wildcards and escapes
(`%`, `_`, `\`), `search_metadata`'s query returns only catalog rows in
which at least one term occurs case-insensitively as a substring of the
dataset name, the table name or a column name (terms joined by OR), and a
supplied (non-falsy) geometry filter additionally forces equality of
`geometry_type` over the whole disjunction. -/
theorem search_metadata_sound (catalog : List CatalogRow)
    (terms : List (List Char)) (geometry_type : Option (List Char))
    (limit : Nat) (row : CatalogRow)
    (hw : ∀ t, t ∈ terms → noWildcards t = true)
    (hmem : row ∈ search_metadata_query catalog terms geometry_type limit) :
    (∃ t, t ∈ terms ∧ rowContainsCI t row = true) ∧
    (∀ g, geometry_type = some g → g.isEmpty = false →
      row.geometry_type = g) := by
  have h1 := mem_sortByRowCount row _ (mem_of_take limit _ row hmem)
  have h2 := List.mem_filter.mp h1
  have hmatch := h2.2
  rw [rowMatches, Bool.and_eq_true] at hmatch
  obtain ⟨hterms, hgeom⟩ := hmatch
  constructor
  · obtain ⟨t, ht, hcond⟩ := List.any_eq_true.mp hterms
    refine ⟨t, ht, ?_⟩
    have hwt : noWildcards (lowerStr t) = true := noWildcards_lowerStr t (hw t ht)
    rw [termCondition] at hcond
    simp only [mkLikePattern, Bool.or_eq_true] at hcond
    rw [rowContainsCI]
    rcases hcond with (hlike | hlike) | hlike
    · obtain ⟨u, v, huv⟩ := likeMatch_pattern_sound (lowerStr t) _ hwt hlike
      have hocc : occursIn (lowerStr t) (lowerStr row.dataset_name) = true := by
        rw [← huv]; exact occursIn_of_append u (lowerStr t) v
      simp only [Bool.or_eq_true]
      exact Or.inl (Or.inl hocc)
    · obtain ⟨u, v, huv⟩ := likeMatch_pattern_sound (lowerStr t) _ hwt hlike
      have hocc : occursIn (lowerStr t) (lowerStr row.table_name) = true := by
        rw [← huv]; exact occursIn_of_append u (lowerStr t) v
      simp only [Bool.or_eq_true]
      exact Or.inl (Or.inr hocc)
    · obtain ⟨c, hc, hlikec⟩ := List.any_eq_true.mp hlike
      obtain ⟨u, v, huv⟩ := likeMatch_pattern_sound (lowerStr t) _ hwt hlikec
      have : occursIn (lowerStr t) (lowerStr c) = true := by
        rw [← huv]; exact occursIn_of_append u (lowerStr t) v
      simp only [Bool.or_eq_true]
      exact Or.inr (List.any_eq_true.mpr ⟨c, hc, this⟩)
  · intro g hg hge
    rw [hg, geomFilter] at hgeom
    rw [if_neg (by simp [hge])] at hgeom
    exact eq_of_beq hgeom

/-- Witness for C5: a wildcard-free search for `poverty` with a `POLYGON`
geometry filter; the returned poverty row contains the term and has the
required geometry type. -/
theorem search_metadata_sound_witness :
    rowPovertyA ∈ search_metadata_query [rowABC, rowPovertyA]
      [strChars "poverty"] (some (strChars "POLYGON")) 20 ∧
    ((∃ t, t ∈ [strChars "poverty"] ∧ rowContainsCI t rowPovertyA = true) ∧
     (∀ g, (some (strChars "POLYGON") : Option (List Char)) = some g →
       g.isEmpty = false → rowPovertyA.geometry_type = g)) :=
  ⟨by decide,
   search_metadata_sound [rowABC, rowPovertyA] [strChars "poverty"]
     (some (strChars "POLYGON")) 20 rowPovertyA (by decide) (by decide)⟩
